import Mathlib

/-!
Verification development for the moderation & analytics pipeline of the
sessionprocess chat application.  The TypeScript sources are embedded
shallowly: pure functions become Lean functions over `List Char`, `ℤ`
(millisecond timestamps) and `ℚ` (JS numbers in the fragments exercised
here are exact decimal arithmetic); the Firebase record store becomes
explicit state passing; `Date.now()` becomes a `now` parameter; the
local-timezone dependence of `Date.getHours` becomes an explicit offset
parameter.  JS number truthiness (`x && p x` skips `p` when `x` is `0` or
`undefined`) is modelled explicitly wherever the source relies on it.
-/

namespace SessionProcess

/-! ## Character and string primitives

The lexicon and regex matching in `messageModerator.ts` is ASCII
case-insensitive substring / pattern search; `lowerChar` is the fragment
of JS `toLowerCase` the lexicons exercise. -/

/-- ASCII lowercasing of one character. -/
def lowerChar (c : Char) : Char :=
  if 'A' ≤ c ∧ c ≤ 'Z' then Char.ofNat (c.toNat + 32) else c

/-- ASCII lowercasing of a character list (JS `String.prototype.toLowerCase`
on the ASCII fragment). -/
def lowerStr (s : List Char) : List Char := s.map lowerChar

/-- Plain prefix test on character lists. -/
def strHasPre : List Char → List Char → Bool
  | [], _ => true
  | _ :: _, [] => false
  | p :: ps, c :: cs => p == c && strHasPre ps cs

/-- JS `String.prototype.includes`: substring search. -/
def strIncludes (hay pat : List Char) : Bool :=
  hay.tails.any fun t => strHasPre pat t

/-- The whitespace class of JS regexes (`\\s`). -/
def jsSpace (c : Char) : Bool :=
  c == ' ' || c == '\t' || c == '\n' || c == '\x0b' || c == '\x0c' ||
  c == '\r' || c == '\u00a0' || c == '\u1680' ||
  ('\u2000' ≤ c && c ≤ '\u200a') || c == '\u2028' || c == '\u2029' ||
  c == '\u202f' || c == '\u205f' || c == '\u3000' || c == '\ufeff'

/-- The word class of JS regexes (`\w`). -/
def wordChar (c : Char) : Bool :=
  ('a' ≤ c && c ≤ 'z') || ('A' ≤ c && c ≤ 'Z') ||
  ('0' ≤ c && c ≤ '9') || c == '_'

/-- Decimal digit (`\d`). -/
def digitChar (c : Char) : Bool := '0' ≤ c && c ≤ '9'

/-- JS regex line terminators, which `.` does not match. -/
def lineTerm (c : Char) : Bool :=
  c == '\n' || c == '\r' || c == '\u2028' || c == '\u2029'

/-- Case-insensitively match a literal, returning the remainder on success. -/
def litRem : List Char → List Char → Option (List Char)
  | [], s => some s
  | _ :: _, [] => none
  | p :: ps, c :: cs =>
    if lowerChar p == lowerChar c then litRem ps cs else none

/-- Case-insensitive prefix test (used for `/i` backreference matching). -/
def ciPre (p s : List Char) : Bool := (litRem p s).isSome

/-! ## A small regex engine

The five `HARASSMENT_PATTERNS` of `messageModerator.ts` use only literal
text, `\s+`, alternation and concatenation; `Rx` is exactly that syntax and
`rxTest` is `RegExp.prototype.test` (unanchored search, `/i`: matching is
case-insensitive throughout). -/

inductive Rx where
  | lit : List Char → Rx
  | ws : Rx
  | cat : Rx → Rx → Rx
  | alt : Rx → Rx → Rx

/-- All remainders reachable by consuming one or more whitespace characters
(`\s+`). -/
def wsTails : List Char → List (List Char)
  | [] => []
  | c :: cs => if jsSpace c then cs :: wsTails cs else []

/-- All remainders after matching `r` against a prefix of `s`. -/
def matchRem : Rx → List Char → List (List Char)
  | .lit p, s => match litRem p s with
    | some r => [r]
    | none => []
  | .ws, s => wsTails s
  | .cat a b, s => (matchRem a s).foldr (fun r acc => matchRem b r ++ acc) []
  | .alt a b, s => matchRem a s ++ matchRem b s

/-- `RegExp.test`: does `r` match starting at some position of `s`? -/
def rxTest (r : Rx) (s : List Char) : Bool :=
  s.tails.any fun t => !(matchRem r t).isEmpty

/-! ## messageModerator.ts: lexicons and patterns -/

/-- `PROFANITY_LEVELS.mild`. -/
def mildProfanity : List String :=
  ["damn", "hell", "crap", "stupid", "idiot", "moron", "dumb"]

/-- `PROFANITY_LEVELS.moderate`. -/
def moderateProfanity : List String :=
  ["hate", "kill", "die", "trash", "garbage", "worthless"]

/-- `PROFANITY_LEVELS.severe`. -/
def severeProfanity : List String :=
  ["extreme profanity would go here"]

/-- `HARASSMENT_PATTERNS`, one `Rx` per source regex, in array order. -/
def harassmentPatterns : List Rx :=
  [ .cat (.lit "you".data) (.cat .ws (.cat
      (.alt (.lit "should".data) (.lit "need to".data)) (.cat .ws
      (.alt (.lit "die".data) (.lit "kill yourself".data))))),
    .lit "kys".data,
    .cat (.lit "go".data) (.cat .ws (.cat (.lit "kill".data)
      (.cat .ws (.lit "yourself".data)))),
    .cat (.lit "nobody".data) (.cat .ws (.cat (.lit "likes".data)
      (.cat .ws (.lit "you".data)))),
    .cat (.lit "you".data) (.cat .ws (.cat (.lit "are".data) (.cat .ws
      (.alt (.lit "worthless".data)
        (.alt (.lit "pathetic".data) (.lit "disgusting".data)))))) ]

/-! ## messageModerator.ts: SPAM_PATTERNS

The five spam regexes need constructs beyond `Rx` (a backreference, anchors,
character classes with repetition bounds); each is embedded as a dedicated
matcher with `RegExp.test` (does-a-match-exist) semantics. -/

/-- Spam pattern 1, the regex (.)\1 with bound 5-or-more and flag i: six
consecutive characters equal up to ASCII case, the first not a line
terminator (`.` does not match line terminators). -/
def hasRepeatRun : List Char → Bool
  | c1 :: c2 :: c3 :: c4 :: c5 :: c6 :: rest =>
    (!lineTerm c1 &&
      [c2, c3, c4, c5, c6].all fun c => lowerChar c == lowerChar c1) ||
    hasRepeatRun (c2 :: c3 :: c4 :: c5 :: c6 :: rest)
  | _ => false

/-- Letter of either case: with flag i the class [A-Z] matches both cases. -/
def asciiLetter (c : Char) : Bool :=
  ('A' ≤ c && c ≤ 'Z') || ('a' ≤ c && c ≤ 'z')

/-- Spam pattern 2, the anchored regex ^[A-Z\s!] with bound 15-or-more and
flag i: the whole string is at least 15 characters, each a letter (either
case, because of the i flag), whitespace or an exclamation mark. -/
def allCapsSpam (s : List Char) : Bool :=
  decide (15 ≤ s.length) &&
  s.all fun c => asciiLetter c || jsSpace c || c == '!'

/-- The maximal run of characters satisfying `p` at the front, and the rest. -/
def takeRun (p : Char → Bool) : List Char → List Char × List Char
  | [] => ([], [])
  | c :: cs =>
    if p c then
      let (w, r) := takeRun p cs
      (c :: w, r)
    else ([], c :: cs)

/-- All splits of a list into a prefix and the matching suffix. -/
def splitsOf : List Char → List (List Char × List Char)
  | [] => [([], [])]
  | c :: cs => ([], c :: cs) :: (splitsOf cs).map fun p => (c :: p.1, p.2)

/-- No word boundary is crossed into a word character when the previous
character is itself a word character. -/
def boundaryBefore (prev : Option Char) : Bool :=
  match prev with
  | none => true
  | some p => !wordChar p

/-- Backtracking search for spam pattern 3, the regex (\b\w+\b.*?) repeated
3-or-more times followed by a backreference to the last repetition, flag i.
`prev` is the character before the current position (for `\b`), `k` the
number of repetitions matched so far, `cap` the last captured text.  A
repetition must start at a word boundary and begin with a maximal word-char
run (a shorter `\w+` would put the following `\b` between two word
characters); the lazy tail may be any further prefix.  Fuel bounds the
recursion: every repetition consumes at least one character. -/
def phraseFrom (fuel : ℕ) (prev : Option Char) (s : List Char) (k : ℕ)
    (cap : List Char) : Bool :=
  match fuel with
  | 0 => false
  | fuel + 1 =>
    (decide (3 ≤ k) && ciPre cap s) ||
    (match s with
     | [] => false
     | c :: _ =>
       boundaryBefore prev && wordChar c &&
       (let (w, rest) := takeRun wordChar s
        (splitsOf rest).any fun j =>
          phraseFrom fuel ((w ++ j.1).getLast?) j.2 (k + 1) (w ++ j.1)))

/-- Spam pattern 3 (repeated words/phrases): unanchored search. -/
def repeatedPhrase (s : List Char) : Bool :=
  (splitsOf s).any fun p => phraseFrom (p.2.length + 1) p.1.getLast? p.2 0 []

/-- Spam pattern 4, URLs: http:// or https:// (case-insensitive, flag i)
followed by at least one non-whitespace character. -/
def urlSpam (s : List Char) : Bool :=
  s.tails.any fun t =>
    (match litRem "http://".data t with
     | some (c :: _) => !jsSpace c
     | _ => false) ||
    (match litRem "https://".data t with
     | some (c :: _) => !jsSpace c
     | _ => false)

/-- Spam pattern 5, the regex \b\d bounded 10-or-more \b: a maximal run of
at least ten digits with a word boundary on each side. -/
def longDigitRun (s : List Char) : Bool :=
  (splitsOf s).any fun p =>
    boundaryBefore p.1.getLast? &&
    (let (d, rest) := takeRun digitChar p.2
     decide (10 ≤ d.length) &&
     match rest with
     | [] => true
     | r :: _ => !wordChar r)

/-- Does the message match any of the five `SPAM_PATTERNS`, in array order? -/
def spamMatch (s : List Char) : Bool :=
  hasRepeatRun s || allCapsSpam s || repeatedPhrase s || urlSpam s ||
  longDigitRun s

/-! ## messageModerator.ts: the classifier `MessageModerator.moderateMessage` -/

/-- `FlaggedMessage.flagReason`. -/
inductive FlagReason where
  | profanity | spam | harassment | inappropriate | manual
  deriving DecidableEq, Repr

/-- `FlaggedMessage.severity`. -/
inductive Severity where
  | low | medium | high
  deriving DecidableEq, Repr

/-- The result object of `moderateMessage`; absent optional properties are
`none`. -/
structure ModerationResult where
  shouldFlag : Bool
  shouldDelete : Bool
  flagReason : Option FlagReason := none
  severity : Option Severity := none
  deriving DecidableEq, Repr

/-- Does the lowercased message contain a severe-profanity lexicon word
(the first loop of `moderateMessage`)? -/
def severeHit (message : String) : Bool :=
  severeProfanity.any fun w => strIncludes (lowerStr message.data) (lowerStr w.data)

/-- Does the message match one of the `HARASSMENT_PATTERNS`? -/
def harassmentHit (message : String) : Bool :=
  harassmentPatterns.any fun p => rxTest p message.data

/-- Does the lowercased message contain a moderate-profanity lexicon word? -/
def moderateHit (message : String) : Bool :=
  moderateProfanity.any fun w => strIncludes (lowerStr message.data) (lowerStr w.data)

/-- Does the lowercased message contain a mild-profanity lexicon word? -/
def mildHit (message : String) : Bool :=
  mildProfanity.any fun w => strIncludes (lowerStr message.data) (lowerStr w.data)

/-- `MessageModerator.moderateMessage(message, _userId, _messageId)`: the
rule checks run in source order, first match returning.  An early-returning
word loop over a lexicon is `List.any`. -/
def moderateMessage (message : String) (_userId _messageId : String) :
    ModerationResult :=
  if severeHit message then
    { shouldFlag := true, shouldDelete := true,
      flagReason := some .profanity, severity := some .high }
  else if harassmentHit message then
    { shouldFlag := true, shouldDelete := true,
      flagReason := some .harassment, severity := some .high }
  else if moderateHit message then
    { shouldFlag := true, shouldDelete := false,
      flagReason := some .profanity, severity := some .medium }
  else if mildHit message then
    { shouldFlag := true, shouldDelete := false,
      flagReason := some .profanity, severity := some .low }
  else if spamMatch message.data then
    { shouldFlag := true, shouldDelete := false,
      flagReason := some .spam, severity := some .medium }
  else if 800 < message.length then
    { shouldFlag := true, shouldDelete := false,
      flagReason := some .inappropriate, severity := some .low }
  else
    { shouldFlag := false, shouldDelete := false }

/-! ## messageModerator.ts: flagged messages, review workflow and stats -/

/-- `FlaggedMessage.action`. -/
inductive ReviewAction where
  | approved | deleted | edited
  deriving DecidableEq, Repr

/-- The `FlaggedMessage` interface (the typed records
`monitorFlaggedMessages` hands to `getFlaggedMessagesStats`).  Timestamps
are millisecond integers. -/
structure FlaggedMessage where
  id : String
  text : String
  user : String
  userId : Option String := none
  timestamp : ℤ
  flagReason : FlagReason
  flaggedAt : ℤ
  flaggedBy : Option String := none
  autoFlagged : Bool
  severity : Severity
  reviewed : Bool
  reviewedBy : Option String := none
  reviewedAt : Option ℤ := none
  action : Option ReviewAction := none
  deriving DecidableEq, Repr

/-- The `bySeverity` record of `getFlaggedMessagesStats`. -/
structure SeverityCounts where
  low : ℕ
  medium : ℕ
  high : ℕ
  deriving DecidableEq, Repr

/-- The `byReason` record of `getFlaggedMessagesStats`. -/
structure ReasonCounts where
  profanity : ℕ
  spam : ℕ
  harassment : ℕ
  inappropriate : ℕ
  manual : ℕ
  deriving DecidableEq, Repr

/-- The return object of `getFlaggedMessagesStats`. -/
structure FlaggedStats where
  total : ℕ
  unreviewed : ℕ
  bySeverity : SeverityCounts
  byReason : ReasonCounts
  autoFlagged : ℕ
  manualFlagged : ℕ
  deriving DecidableEq, Repr

/-- `MessageModerator.getFlaggedMessagesStats`: pure aggregation over the
flagged-message list. -/
def getFlaggedMessagesStats (flaggedMessages : List FlaggedMessage) :
    FlaggedStats :=
  let unreviewed := flaggedMessages.filter fun msg => !msg.reviewed
  { total := flaggedMessages.length
    unreviewed := unreviewed.length
    bySeverity :=
      { low := (unreviewed.filter fun msg => msg.severity == .low).length
        medium := (unreviewed.filter fun msg => msg.severity == .medium).length
        high := (unreviewed.filter fun msg => msg.severity == .high).length }
    byReason :=
      { profanity := (unreviewed.filter fun msg => msg.flagReason == .profanity).length
        spam := (unreviewed.filter fun msg => msg.flagReason == .spam).length
        harassment := (unreviewed.filter fun msg => msg.flagReason == .harassment).length
        inappropriate := (unreviewed.filter fun msg => msg.flagReason == .inappropriate).length
        manual := (unreviewed.filter fun msg => msg.flagReason == .manual).length }
    autoFlagged := (unreviewed.filter fun msg => msg.autoFlagged).length
    manualFlagged := (unreviewed.filter fun msg => !msg.autoFlagged).length }

/-- A chat message as stored at `messages/(id)`. -/
structure Message where
  text : String
  user : String
  userId : Option String := none
  timestamp : ℤ
  deriving DecidableEq, Repr

/-- A record at `flaggedMessages/(id)` as JSON: Firebase `update` merges
partial objects, so every property is optional here. -/
structure StoredFlag where
  id : Option String := none
  text : Option String := none
  user : Option String := none
  userId : Option String := none
  timestamp : Option ℤ := none
  flagReason : Option FlagReason := none
  flaggedAt : Option ℤ := none
  flaggedBy : Option String := none
  autoFlagged : Option Bool := none
  severity : Option Severity := none
  reviewed : Option Bool := none
  reviewedBy : Option String := none
  reviewedAt : Option ℤ := none
  action : Option ReviewAction := none
  deriving DecidableEq, Repr

/-- The slice of the record store `MessageModerator` touches:
`messages/(id)` and `flaggedMessages/(id)`. -/
structure ModerationStore where
  messages : String → Option Message
  flaggedMessages : String → Option StoredFlag

/-- `MessageModerator.deleteMessage`: `remove(messages/(id))`. -/
def deleteMessage (s : ModerationStore) (messageId : String) :
    ModerationStore :=
  { s with messages := fun i => if i = messageId then none else s.messages i }

/-- `MessageModerator.reviewFlaggedMessage`: merge the review fields into
`flaggedMessages/(id)` (Firebase `update` keeps the other properties, and
creates the record when absent), then, when the action is `deleted`, remove
the underlying message.  `Date.now()` is the explicit `now`. -/
def reviewFlaggedMessage (s : ModerationStore) (messageId reviewerId : String)
    (action : ReviewAction) (now : ℤ) : ModerationStore :=
  let merged : StoredFlag :=
    match s.flaggedMessages messageId with
    | some f =>
      { f with
        reviewed := some true
        reviewedBy := some reviewerId
        reviewedAt := some now
        action := some action }
    | none =>
      { reviewed := some true
        reviewedBy := some reviewerId
        reviewedAt := some now
        action := some action }
  let s1 : ModerationStore :=
    { s with flaggedMessages :=
        fun i => if i = messageId then some merged else s.flaggedMessages i }
  if action = .deleted then deleteMessage s1 messageId else s1

/-! ## userManager.ts: ban records -/

/-- `BanRecord.type`. -/
inductive BanType where
  | temporary | permanent
  deriving DecidableEq, Repr

/-- The `BanRecord` interface. -/
structure BanRecord where
  id : String
  userId : String
  bannedBy : String
  reason : String
  type : BanType
  startDate : ℤ
  endDate : Option ℤ := none
  isActive : Bool
  revokedBy : Option String := none
  revokedAt : Option ℤ := none
  revokeReason : Option String := none
  deriving DecidableEq, Repr

/-- The `bans/` collection in insertion (push-key) order, which is the
order `Object.entries` iterates it in `unbanUser`. -/
structure BanStore where
  bans : List BanRecord
  deriving DecidableEq, Repr

/-- `UserManager.banUser`, restricted to its effect on the `bans/`
collection (the user-status, ban-history and activity-log writes touch no
ban record): push a fresh record with `isActive: true`.  The JS
`type === 'temporary' && duration` is number truthiness, so a zero or
absent duration leaves `endDate` undefined. -/
def banUser (s : BanStore) (userId bannedBy reason : String) (type : BanType)
    (duration : Option ℕ) (banId : String) (now : ℤ) : BanStore :=
  let endDate : Option ℤ :=
    match type, duration with
    | .temporary, some d => if d = 0 then none else some (now + d * 3600000)
    | _, _ => none
  { bans := s.bans ++
      [{ id := banId, userId := userId, bannedBy := bannedBy, reason := reason,
         type := type, startDate := now, endDate := endDate, isActive := true }] }

/-- Revoke the first active ban of `u` in list order, as the `find` +
`update(bans/(banId))` of `unbanUser` does. -/
def revokeFirstActive (u revokedBy revokeReason : String) (now : ℤ) :
    List BanRecord → List BanRecord
  | [] => []
  | b :: rest =>
    if b.userId == u && b.isActive then
      { b with
        isActive := false
        revokedBy := some revokedBy
        revokedAt := some now
        revokeReason := some revokeReason } :: rest
    else b :: revokeFirstActive u revokedBy revokeReason now rest

/-- `UserManager.unbanUser`, restricted to the `bans/` collection: find the
first active ban of the user; absent one, return `false` unchanged;
otherwise revoke it. -/
def unbanUser (s : BanStore) (userId revokedBy revokeReason : String)
    (now : ℤ) : BanStore × Bool :=
  if s.bans.any (fun b => b.userId == userId && b.isActive) then
    ({ bans := revokeFirstActive userId revokedBy revokeReason now s.bans }, true)
  else (s, false)

/-- The bans of `u` currently marked active. -/
def activeBansFor (s : BanStore) (u : String) : List BanRecord :=
  s.bans.filter fun b => b.userId == u && b.isActive

/-- At most one active ban per user. -/
def oneActiveBanPerUser (s : BanStore) : Prop :=
  ∀ u : String, (activeBansFor s u).length ≤ 1

/-! ## AnalyticsManager: sentiment and keyword heuristics

JS `String.prototype.split(/\s+/)`: the string is cut at every maximal
whitespace run, and a leading or trailing run contributes an empty piece
(`" a"` gives two pieces, `""` gives one). -/

/-- `split(/\s+/)` on a character list, scanning from the right: the state
is (pieces of the processed suffix, whether the processed suffix starts
with whitespace). -/
def jsSplitWs (s : List Char) : List (List Char) :=
  (s.foldr (fun c st =>
    if jsSpace c then
      if st.2 then (st.1, true) else ([] :: st.1, true)
    else
      match st.1 with
      | h :: t => ((c :: h) :: t, false)
      | [] => ([[c]], false))
    ([[]], false)).1

/-- The positive lexicon of `AnalyticsManager.analyzeSentiment`. -/
def positiveWords : List String :=
  ["good", "great", "awesome", "excellent", "love", "like", "happy",
   "amazing", "wonderful", "fantastic"]

/-- The negative lexicon of `AnalyticsManager.analyzeSentiment`. -/
def negativeWords : List String :=
  ["bad", "terrible", "awful", "hate", "dislike", "sad", "angry",
   "horrible", "disgusting", "annoying"]

/-- The `forEach` accumulation of `analyzeSentiment`: +1 per positive
token, −1 per negative token. -/
def sentimentScore (words : List (List Char)) : ℤ :=
  words.foldl (fun sc w =>
    let sc := if (positiveWords.map String.data).contains w then sc + 1 else sc
    if (negativeWords.map String.data).contains w then sc - 1 else sc) 0

/-- `analyzeSentiment(text).comparative`: score over token count (`0` when
there is no token — the split in fact never returns an empty array). -/
def sentimentComparative (text : String) : ℚ :=
  let words := jsSplitWs (lowerStr text.data)
  if 0 < words.length then (sentimentScore words : ℚ) / (words.length : ℚ)
  else 0

/-- The stop-word list of `AnalyticsManager.extractKeywords`, verbatim
(including the repeated entry). -/
def stopWords : List String :=
  ["the", "is", "at", "which", "on", "and", "a", "to", "are", "as", "was",
   "were", "been", "be", "have", "has", "had", "do", "does", "did", "will",
   "would", "could", "should", "may", "might", "must", "can", "shall", "of",
   "in", "for", "with", "by", "from", "up", "about", "into", "through",
   "during", "before", "after", "above", "below", "between", "among",
   "under", "over", "out", "off", "down", "than", "but", "or", "nor", "so",
   "yet", "if", "then", "else", "when", "where", "why", "how", "what",
   "who", "whom", "whose", "which", "that", "this", "these", "those", "i",
   "you", "he", "she", "it", "we", "they", "me", "him", "her", "us",
   "them", "my", "your", "his", "its", "our", "their"]

/-- `AnalyticsManager.extractKeywords`: lowercase, strip every character
that is neither a word character nor whitespace, split on whitespace, keep
tokens longer than two characters that are not stop words. -/
def extractKeywords (text : String) : List (List Char) :=
  (jsSplitWs ((lowerStr text.data).filter fun c => wordChar c || jsSpace c)).filter
    fun w => decide (2 < w.length) && !((stopWords.map String.data).contains w)

/-! ## AnalyticsManager: the risk scorer `calculateRiskScore`

`Partial UserBehaviorMetrics` (every property optional), and JS number
truthiness: a guard `x && x > t` is false when `x` is absent or zero. -/

/-- One point of the weekly sentiment trend.  The JS bucket key is the
ISO-date string of the week start; it is modelled by the week start's epoch
day number, which determines and is determined by that string. -/
structure SentimentPoint where
  date : ℤ
  avgSentiment : ℚ
  deriving DecidableEq, Repr

/-- One entry of `topKeywords`. -/
structure KeywordCount where
  word : String
  count : ℕ
  deriving DecidableEq, Repr

/-- The `UserBehaviorMetrics` interface. -/
structure UserBehaviorMetrics where
  userId : String
  email : String
  displayName : Option String := none
  totalMessages : ℕ
  averageMessageLength : ℚ
  averageWordsPerMessage : ℚ
  messagesPerHour : ℚ
  peakActivityHours : List ℤ
  sentimentTrend : List SentimentPoint
  flaggedMessageRatio : ℚ
  responseTimeAvg : ℚ
  topKeywords : List KeywordCount
  riskScore : ℚ
  lastActivity : ℤ
  deriving DecidableEq, Repr

/-- `Partial UserBehaviorMetrics`: every property optional. -/
structure PartialMetrics where
  userId : Option String := none
  email : Option String := none
  displayName : Option String := none
  totalMessages : Option ℕ := none
  averageMessageLength : Option ℚ := none
  averageWordsPerMessage : Option ℚ := none
  messagesPerHour : Option ℚ := none
  peakActivityHours : Option (List ℤ) := none
  sentimentTrend : Option (List SentimentPoint) := none
  flaggedMessageRatio : Option ℚ := none
  responseTimeAvg : Option ℚ := none
  topKeywords : Option (List KeywordCount) := none
  riskScore : Option ℚ := none
  lastActivity : Option ℤ := none
  deriving DecidableEq, Repr

/-- A full metrics record seen as a `Partial` one. -/
def toPartialMetrics (m : UserBehaviorMetrics) : PartialMetrics :=
  { userId := some m.userId, email := some m.email,
    displayName := m.displayName, totalMessages := some m.totalMessages,
    averageMessageLength := some m.averageMessageLength,
    averageWordsPerMessage := some m.averageWordsPerMessage,
    messagesPerHour := some m.messagesPerHour,
    peakActivityHours := some m.peakActivityHours,
    sentimentTrend := some m.sentimentTrend,
    flaggedMessageRatio := some m.flaggedMessageRatio,
    responseTimeAvg := some m.responseTimeAvg,
    topKeywords := some m.topKeywords, riskScore := some m.riskScore,
    lastActivity := some m.lastActivity }

/-- JS `x && x > t` for an optional number `x`. -/
def truthyGt (v : Option ℚ) (t : ℚ) : Bool :=
  match v with
  | none => false
  | some x => decide (x ≠ 0) && decide (t < x)

/-- JS `x && x < t` for an optional number `x`. -/
def truthyLt (v : Option ℚ) (t : ℚ) : Bool :=
  match v with
  | none => false
  | some x => decide (x ≠ 0) && decide (x < t)

/-- The `avgSentiment` local of `calculateRiskScore`: the mean of the trend
entries when the trend is present and non-empty, else `0`. -/
def avgSentimentOf (trend : Option (List SentimentPoint)) : ℚ :=
  match trend with
  | some (p :: ps) =>
    ((p :: ps).map SentimentPoint.avgSentiment).sum / (((p :: ps).length : ℚ))
  | _ => 0

/-- `AnalyticsManager.calculateRiskScore`: the five weighted signal checks
in source order, accumulated and capped by `Math.min(riskScore, 100)`. -/
def calculateRiskScore (userBehavior : PartialMetrics) : ℚ :=
  let r1 : ℚ := if truthyGt userBehavior.messagesPerHour 10 then 20 else 0
  let r2 : ℚ := if truthyGt userBehavior.flaggedMessageRatio (1 / 10) then 30 else 0
  let r3 : ℚ := if avgSentimentOf userBehavior.sentimentTrend < -(1 / 2) then 25 else 0
  let r4 : ℚ := if truthyLt userBehavior.responseTimeAvg 5000 then 15 else 0
  let r5 : ℚ := if truthyLt userBehavior.averageMessageLength 10 then 10 else 0
  min (r1 + r2 + r3 + r4 + r5) 100

/-! ## AnalyticsManager: the behavior analyzer `analyzeUserBehavior`

The Firebase reads become arguments: the `messages/` values, the
`users/(uid)` record (or `none`), the `flaggedMessages/` values.
`Date.now()` becomes `now`; the local-timezone dependence of
`Date.getHours`/`getDay` becomes the fixed offset `tz` (milliseconds),
with local clock readings assumed non-negative. -/

/-- The part of the `users/(uid)` record `analyzeUserBehavior` reads. -/
structure UserRecord where
  email : String
  displayName : Option String := none
  lastActive : ℤ := 0
  deriving DecidableEq, Repr

/-- Stable insertion into a timestamp-ascending list (JS `sort` with
comparator `a.timestamp - b.timestamp` is stable). -/
def insertByTs (m : Message) : List Message → List Message
  | [] => [m]
  | x :: xs =>
    if m.timestamp ≤ x.timestamp then m :: x :: xs else x :: insertByTs m xs

/-- Stable sort by ascending timestamp. -/
def sortByTimestamp : List Message → List Message
  | [] => []
  | x :: xs => insertByTs x (sortByTimestamp xs)

/-- The timestamp of the last message (`userMessages[length - 1]`). -/
def lastTimestamp : List Message → ℤ
  | [] => 0
  | [m] => m.timestamp
  | _ :: m :: rest => lastTimestamp (m :: rest)

/-- `new Date(t).getHours()` under a fixed offset `tz`. -/
def hourOfDay (tz t : ℤ) : ℤ := ((t + tz) / 3600000) % 24

/-- The hour histogram entry for hour `h`. -/
def hourCountsOf (tz : ℤ) (msgs : List Message) (h : ℤ) : ℕ :=
  (msgs.filter fun m => hourOfDay tz m.timestamp == h).length

/-- Stable insertion into a count-descending list (JS stable `sort` with
comparator on counts, descending). -/
def insertCountDesc {α : Type} (x : α × ℕ) : List (α × ℕ) → List (α × ℕ)
  | [] => [x]
  | y :: ys => if y.2 ≤ x.2 then x :: y :: ys else y :: insertCountDesc x ys

/-- Stable sort, descending by count. -/
def sortCountDesc {α : Type} : List (α × ℕ) → List (α × ℕ)
  | [] => []
  | x :: xs => insertCountDesc x (sortCountDesc xs)

/-- `peakActivityHours`: `Object.entries(hourCounts)` (integer-like keys
iterate in ascending order, only seen hours are present), stable-sorted by
descending count, first three hours. -/
def peakHoursOf (tz : ℤ) (msgs : List Message) : List ℤ :=
  let entries := ((List.range 24).map fun h =>
    ((h : ℤ), hourCountsOf tz msgs h)).filter fun e => decide (0 < e.2)
  ((sortCountDesc entries).take 3).map Prod.fst

/-- The week-bucket key of a timestamp: the epoch-day number of
`toISOString` of the date moved back to the local week start
(`setDate(getDate() - getDay())` keeps the time of day, so the UTC date of
`t - dow * 86400000`, where `dow` is the local day of week; epoch day 0,
1970-01-01, was a Thursday, day of week 4). -/
def weekKey (tz t : ℤ) : ℤ :=
  let localDay := (t + tz) / 86400000
  let dow := (localDay + 4) % 7
  (t - dow * 86400000) / 86400000

/-- Append `v` to the bucket of `key`, keeping first-seen bucket order
(JS object property insertion order). -/
def addToBucket (key : ℤ) (v : ℚ) :
    List (ℤ × List ℚ) → List (ℤ × List ℚ)
  | [] => [(key, [v])]
  | (k, vs) :: rest =>
    if k == key then (k, vs ++ [v]) :: rest
    else (k, vs) :: addToBucket key v rest

/-- The `weekBuckets` map: per week-start key, the sentiment comparatives
of the user's messages, in message order. -/
def weekBucketsOf (tz : ℤ) (msgs : List Message) : List (ℤ × List ℚ) :=
  msgs.foldl (fun acc m =>
    addToBucket (weekKey tz m.timestamp) (sentimentComparative m.text) acc) []

/-- The gaps between consecutive messages of the sorted list. -/
def consecutiveGaps : List Message → List ℤ
  | a :: b :: rest => (b.timestamp - a.timestamp) :: consecutiveGaps (b :: rest)
  | _ => []

/-- Raise the count of keyword `w`, keeping first-seen order. -/
def bumpCount (w : List Char) :
    List (List Char × ℕ) → List (List Char × ℕ)
  | [] => [(w, 1)]
  | (k, n) :: rest =>
    if k == w then (k, n + 1) :: rest else (k, n) :: bumpCount w rest

/-- The `keywordCounts` map over all keywords of all messages, in order. -/
def keywordCountsOf (msgs : List Message) : List (List Char × ℕ) :=
  msgs.foldl (fun acc m =>
    (extractKeywords m.text).foldl (fun a w => bumpCount w a) acc) []

/-- The metrics block of `analyzeUserBehavior` for a non-empty sorted
message list, with `riskScore` still `0`. -/
def computeUserMetrics (userMessages : List Message)
    (flaggedMessages : List StoredFlag) (userId : String) (u : UserRecord)
    (tz : ℤ) : UserBehaviorMetrics :=
  let totalMessages := userMessages.length
  let totalLength := (userMessages.map fun m => m.text.length).sum
  let totalWords := (userMessages.map fun m => (jsSplitWs m.text.data).length).sum
  let timeSpan : ℤ :=
    lastTimestamp userMessages - (userMessages.head?.elim 0 Message.timestamp)
  let responseTimes := (consecutiveGaps userMessages).filter fun d => decide (d < 300000)
  { userId := userId
    email := u.email
    displayName := u.displayName
    totalMessages := totalMessages
    averageMessageLength := (totalLength : ℚ) / (totalMessages : ℚ)
    averageWordsPerMessage := (totalWords : ℚ) / (totalMessages : ℚ)
    messagesPerHour :=
      if 0 < timeSpan then (totalMessages : ℚ) / ((timeSpan : ℚ) / 3600000) else 0
    peakActivityHours := peakHoursOf tz userMessages
    sentimentTrend := (weekBucketsOf tz userMessages).map fun b =>
      ⟨b.1, b.2.sum / (b.2.length : ℚ)⟩
    flaggedMessageRatio :=
      (((flaggedMessages.filter fun f => f.userId == some userId).length : ℚ)) /
        (totalMessages : ℚ)
    responseTimeAvg :=
      if 0 < responseTimes.length then
        (((responseTimes.sum : ℤ) : ℚ)) / (responseTimes.length : ℚ)
      else 0
    topKeywords := ((sortCountDesc (keywordCountsOf userMessages)).take 10).map
      fun e => ⟨String.mk e.1, e.2⟩
    riskScore := 0
    lastActivity := u.lastActive }

/-- `AnalyticsManager.analyzeUserBehavior(userId, days)`: `null` when the
user record is absent; a zeroed record when the user has no message in the
window; otherwise the computed metrics with the risk score filled in last.
The try/catch only turns store read failures into `null`; the computation
itself never throws. -/
def analyzeUserBehavior (messages : List Message) (user : Option UserRecord)
    (flaggedMessages : List StoredFlag) (userId : String) (days : ℕ)
    (now tz : ℤ) : Option UserBehaviorMetrics :=
  match user with
  | none => none
  | some u =>
    let userMessages := sortByTimestamp (messages.filter fun m =>
      m.userId == some userId && decide (now - days * 86400000 < m.timestamp))
    match userMessages with
    | [] => some
        { userId := userId, email := u.email, displayName := u.displayName,
          totalMessages := 0, averageMessageLength := 0,
          averageWordsPerMessage := 0, messagesPerHour := 0,
          peakActivityHours := [], sentimentTrend := [],
          flaggedMessageRatio := 0, responseTimeAvg := 0, topKeywords := [],
          riskScore := 0, lastActivity := u.lastActive }
    | m0 :: rest =>
      let userBehavior := computeUserMetrics (m0 :: rest) flaggedMessages userId u tz
      some { userBehavior with
             riskScore := calculateRiskScore (toPartialMetrics userBehavior) }

/-! ## AnalyticsManager: `analyzeModerationEffectiveness`

The review-latency and accuracy part of the function (its remainder
derives per-moderator and per-rule breakdowns from the same filtered
list). -/

/-- JS truthiness of an optional timestamp. -/
def truthyTime (v : Option ℤ) : Bool :=
  match v with
  | none => false
  | some t => decide (t ≠ 0)

/-- `recentFlagged`: flags flagged after the cutoff and reviewed. -/
def recentReviewed (flaggedMessages : List StoredFlag) (days : ℕ)
    (now : ℤ) : List StoredFlag :=
  let cutoffTime := now - days * 86400000
  flaggedMessages.filter fun flag =>
    (match flag.flaggedAt with
     | some t => decide (cutoffTime < t)
     | none => false) && flag.reviewed == some true

/-- The summary scalars of `ModerationEffectiveness`. -/
structure EffectivenessSummary where
  totalReviews : ℕ
  avgReviewTime : ℚ
  accuracyRate : ℚ
  falsePositiveRate : ℚ
  deriving DecidableEq, Repr

/-- `analyzeModerationEffectiveness(days)`, summary part: review count,
average review latency in minutes, accuracy and false-positive rates as
percentages of all reviewed flags in the window. -/
def moderationEffectivenessSummary (flaggedMessages : List StoredFlag)
    (days : ℕ) (now : ℤ) : EffectivenessSummary :=
  let recentFlagged := recentReviewed flaggedMessages days now
  let totalReviews := recentFlagged.length
  let reviewTimes := (recentFlagged.filter fun flag =>
      truthyTime flag.reviewedAt && truthyTime flag.flaggedAt).map
      fun flag => flag.reviewedAt.getD 0 - flag.flaggedAt.getD 0
  let correctFlags :=
    (recentFlagged.filter fun flag => flag.action == some .deleted).length
  let incorrectFlags :=
    (recentFlagged.filter fun flag => flag.action == some .approved).length
  { totalReviews := totalReviews
    avgReviewTime :=
      if 0 < reviewTimes.length then
        (((reviewTimes.sum : ℤ) : ℚ) / (reviewTimes.length : ℚ)) / 60000
      else 0
    accuracyRate :=
      if 0 < totalReviews then ((correctFlags : ℚ) / (totalReviews : ℚ)) * 100
      else 0
    falsePositiveRate :=
      if 0 < totalReviews then ((incorrectFlags : ℚ) / (totalReviews : ℚ)) * 100
      else 0 }

/-! ## Spec-side definitions and concrete fixtures

`claimedRiskScore` follows the words of claim C2 (a refinement-style
comparison target, not a translation of the source); `amendedRiskScore`
is the amended formula.  The remaining definitions are concrete inputs
used by counterexamples and witnesses. -/

/-- Weight `w` when the signal is present and over `t`, else `0`. -/
def presentGtWeight (v : Option ℚ) (t w : ℚ) : ℚ :=
  match v with
  | some x => if t < x then w else 0
  | none => 0

/-- Weight `w` when the signal is present and below `t`, else `0`. -/
def presentLtWeight (v : Option ℚ) (t w : ℚ) : ℚ :=
  match v with
  | some x => if x < t then w else 0
  | none => 0

/-- Weight `w` when the signal is present, non-zero and below `t`. -/
def presentNonzeroLtWeight (v : Option ℚ) (t w : ℚ) : ℚ :=
  match v with
  | some x => if x ≠ 0 ∧ x < t then w else 0
  | none => 0

/-- The risk score as claim C2 states it: the sum of the weights of exactly
the triggered signals — +20 when messagesPerHour is present and over 10,
+30 when flaggedMessageRatio is present and over 0.1, +25 when the mean
weekly sentiment comparative is below −0.5, +15 when responseTimeAvg is
present and below 5000, +10 when averageMessageLength is present and below
10 — capped at 100. -/
def claimedRiskScore (m : PartialMetrics) : ℚ :=
  min (presentGtWeight m.messagesPerHour 10 20 +
    presentGtWeight m.flaggedMessageRatio (1 / 10) 30 +
    (if avgSentimentOf m.sentimentTrend < -(1 / 2) then 25 else 0) +
    presentLtWeight m.responseTimeAvg 5000 15 +
    presentLtWeight m.averageMessageLength 10 10) 100

/-- The weighted sum of claim C2 amended as the code forces: a
present-but-zero responseTimeAvg or averageMessageLength counts as an
absent signal (JS number truthiness). -/
def amendedRiskScore (m : PartialMetrics) : ℚ :=
  min (presentGtWeight m.messagesPerHour 10 20 +
    presentGtWeight m.flaggedMessageRatio (1 / 10) 30 +
    (if avgSentimentOf m.sentimentTrend < -(1 / 2) then 25 else 0) +
    presentNonzeroLtWeight m.responseTimeAvg 5000 15 +
    presentNonzeroLtWeight m.averageMessageLength 10 10) 100

/-- A metrics record whose only present signal is a zero average response
time. -/
def zeroResponseMetrics : PartialMetrics := { responseTimeAvg := some 0 }

/-- The empty ban store. -/
def banStore0 : BanStore := ⟨[]⟩

/-- One permanent ban of user u1. -/
def banStore1 : BanStore :=
  banUser banStore0 "u1" "admin" "spamming" .permanent none "b1" 1000

/-- A second ban of u1 issued without unbanning the first. -/
def banStore2 : BanStore :=
  banUser banStore1 "u1" "admin" "ban evasion" .permanent none "b2" 2000

/-- A stored message for the review round-trip witness. -/
def sampleMessage : Message :=
  { text := "hello there", user := "alice", userId := some "uA",
    timestamp := 1000 }

/-- Its flag record. -/
def sampleFlag : StoredFlag :=
  { id := some "m1", text := some "hello there", user := some "alice",
    userId := some "uA", timestamp := some 1000,
    flagReason := some .manual, flaggedAt := some 2000,
    flaggedBy := some "uB", autoFlagged := some false,
    reviewed := some false }

/-- A store holding exactly that message and that flag. -/
def sampleStore : ModerationStore :=
  { messages := fun i => if i = "m1" then some sampleMessage else none
    flaggedMessages := fun i => if i = "m1" then some sampleFlag else none }

/-- A reviewed flag resolved as deleted. -/
def reviewedDeletedFlag : StoredFlag :=
  { flaggedAt := some 10, reviewed := some true, reviewedAt := some 50,
    action := some .deleted }

/-- A reviewed flag resolved as edited. -/
def reviewedEditedFlag : StoredFlag :=
  { flaggedAt := some 20, reviewed := some true, reviewedAt := some 40,
    action := some .edited }

/-- A reviewed flag resolved as approved. -/
def reviewedApprovedFlag : StoredFlag :=
  { flaggedAt := some 30, reviewed := some true, reviewedAt := some 90,
    action := some .approved }

/-! ## Shared counting lemmas -/

/-- Filtering a predicate and its negation partitions a list's length. -/
theorem length_filter_not_add {α : Type} (p : α → Bool) (l : List α) :
    (l.filter fun a => !p a).length + (l.filter p).length = l.length := by
  induction l with
  | nil => rfl
  | cons x xs ih => cases h : p x <;> simp [List.filter_cons, h] <;> omega

/-- The three severity buckets partition a flagged-message list. -/
theorem length_filter_severity (l : List FlaggedMessage) :
    (l.filter fun m => m.severity == .low).length +
    (l.filter fun m => m.severity == .medium).length +
    (l.filter fun m => m.severity == .high).length = l.length := by
  induction l with
  | nil => rfl
  | cons x xs ih => cases h : x.severity <;> simp [List.filter_cons, h] <;> omega

/-! ## C1 -/

/-- C1: a text containing a severe-profanity lexicon word or matching a
harassment pattern is auto-deleted with severity high, whatever other rules
would also match; the reason is profanity for a severe hit and harassment
for a harassment hit without severe hit. -/
theorem severe_or_harassment_autodeletes (message _userId _messageId : String)
    (h : severeHit message = true ∨ harassmentHit message = true) :
    (moderateMessage message _userId _messageId).shouldFlag = true ∧
    (moderateMessage message _userId _messageId).shouldDelete = true ∧
    (moderateMessage message _userId _messageId).severity = some Severity.high ∧
    (severeHit message = true →
      (moderateMessage message _userId _messageId).flagReason =
        some FlagReason.profanity) ∧
    (severeHit message = false → harassmentHit message = true →
      (moderateMessage message _userId _messageId).flagReason =
        some FlagReason.harassment) := by
  unfold moderateMessage
  rcases h with h | h
  · simp [h]
  · cases hs : severeHit message <;> simp [hs, h]

/-- C1 witness: "kys" matches a harassment pattern and is auto-deleted with
severity high and reason harassment. -/
theorem severe_or_harassment_autodeletes_witness :
    harassmentHit "kys" = true ∧
    (moderateMessage "kys" "user1" "msg1").shouldDelete = true ∧
    (moderateMessage "kys" "user1" "msg1").severity = some Severity.high ∧
    (moderateMessage "kys" "user1" "msg1").flagReason =
      some FlagReason.harassment := by
  have h := severe_or_harassment_autodeletes "kys" "user1" "msg1"
    (Or.inr (by decide))
  exact ⟨by decide, h.2.1, h.2.2.1, h.2.2.2.2 (by decide) (by decide)⟩

/-! ## C10 -/

/-- C10: the classifier result is well-shaped: shouldDelete only together
with shouldFlag, and flagReason and severity are present exactly when the
message is flagged. -/
theorem moderation_result_shape (message _userId _messageId : String) :
    ((moderateMessage message _userId _messageId).shouldDelete = true →
      (moderateMessage message _userId _messageId).shouldFlag = true) ∧
    ((moderateMessage message _userId _messageId).flagReason.isSome ↔
      (moderateMessage message _userId _messageId).shouldFlag = true) ∧
    ((moderateMessage message _userId _messageId).severity.isSome ↔
      (moderateMessage message _userId _messageId).shouldFlag = true) := by
  unfold moderateMessage
  split_ifs <;> simp

/-! ## C3 -/

/-- C3: the code flags the lowercase, rule-free sentence "nice warm sunny
day today" as spam (the anchored all-caps pattern carries the i flag, so
any string of 15 or more letters, whitespace and exclamation marks
matches), where the claim expects allow: the message has lowercase
letters, is far under 800 characters, and matches no profanity lexicon and
no harassment pattern. -/
theorem lowercase_text_flagged_as_spam :
    ("nice warm sunny day today".data.any fun c =>
      decide ('a' ≤ c) && decide (c ≤ 'z')) = true ∧
    "nice warm sunny day today".length ≤ 800 ∧
    severeHit "nice warm sunny day today" = false ∧
    moderateHit "nice warm sunny day today" = false ∧
    mildHit "nice warm sunny day today" = false ∧
    harassmentHit "nice warm sunny day today" = false ∧
    hasRepeatRun "nice warm sunny day today".data = false ∧
    repeatedPhrase "nice warm sunny day today".data = false ∧
    urlSpam "nice warm sunny day today".data = false ∧
    longDigitRun "nice warm sunny day today".data = false ∧
    allCapsSpam "nice warm sunny day today".data = true ∧
    moderateMessage "nice warm sunny day today" "user1" "msg1" =
      { shouldFlag := true, shouldDelete := false,
        flagReason := some FlagReason.spam,
        severity := some Severity.medium } := by
  refine ⟨by decide, by decide, by decide, by decide, by decide, by decide,
    by decide, by decide, by decide, by decide, by decide, ?_⟩
  decide

/-! ## C7 -/

/-- C7: `getFlaggedMessagesStats` returns a total equal to the list length,
unreviewed plus the number of reviewed messages equal to the total, and
severity bucket counts that sum to unreviewed. -/
theorem flagged_stats_consistent (flaggedMessages : List FlaggedMessage) :
    (getFlaggedMessagesStats flaggedMessages).total = flaggedMessages.length ∧
    (getFlaggedMessagesStats flaggedMessages).unreviewed +
      (flaggedMessages.filter fun m => m.reviewed).length =
      (getFlaggedMessagesStats flaggedMessages).total ∧
    (getFlaggedMessagesStats flaggedMessages).bySeverity.low +
      (getFlaggedMessagesStats flaggedMessages).bySeverity.medium +
      (getFlaggedMessagesStats flaggedMessages).bySeverity.high =
      (getFlaggedMessagesStats flaggedMessages).unreviewed := by
  refine ⟨rfl, ?_, ?_⟩
  · exact length_filter_not_add (fun m => m.reviewed) flaggedMessages
  · exact length_filter_severity
      (flaggedMessages.filter fun msg => !msg.reviewed)

/-! ## C2 -/

/-- C2 counterexample: on a record whose only present signal is a zero
average response time, the claimed weighted sum is 15 (zero is below
5000 ms) but the code returns 0 — the JS guard `responseTimeAvg &&` treats
the present zero as untriggered. -/
theorem riskScore_mismatch_at_zero_response :
    claimedRiskScore zeroResponseMetrics = 15 ∧
    calculateRiskScore zeroResponseMetrics = 0 := by
  constructor <;>
    norm_num [claimedRiskScore, calculateRiskScore, zeroResponseMetrics,
      truthyGt, truthyLt, avgSentimentOf, presentGtWeight, presentLtWeight]

/-- The truthiness-guarded greater-than test agrees with plain presence
and comparison when the threshold is non-negative. -/
theorem truthyGt_weight (v : Option ℚ) (t w : ℚ) (ht : 0 ≤ t) :
    (if truthyGt v t then w else 0) = presentGtWeight v t w := by
  cases v with
  | none => simp [truthyGt, presentGtWeight]
  | some x =>
    by_cases h : t < x
    · have hx : x ≠ 0 := fun h0 => absurd (h0 ▸ h) (not_lt.mpr ht)
      simp [truthyGt, presentGtWeight, h, hx]
    · simp [truthyGt, presentGtWeight, h]

/-- The truthiness-guarded less-than test is presence plus a non-zero
value plus the comparison. -/
theorem truthyLt_weight (v : Option ℚ) (t w : ℚ) :
    (if truthyLt v t then w else 0) = presentNonzeroLtWeight v t w := by
  cases v with
  | none => simp [truthyLt, presentNonzeroLtWeight]
  | some x =>
    by_cases h0 : x = 0 <;> by_cases h : x < t <;>
      simp [truthyLt, presentNonzeroLtWeight, h0, h]

/-- C2 amended: the risk score equals the sum of the weights of exactly the
triggered signals capped at 100, where a signal whose stored value is zero
counts as absent (so the responseTimeAvg and averageMessageLength signals
additionally require a non-zero value). -/
theorem calculateRiskScore_eq_amended (m : PartialMetrics) :
    calculateRiskScore m = amendedRiskScore m := by
  simp only [calculateRiskScore, amendedRiskScore]
  rw [truthyGt_weight _ _ _ (by norm_num), truthyGt_weight _ _ _ (by norm_num),
    truthyLt_weight, truthyLt_weight]

/-! ## C4 -/

/-- A weight-or-zero term is non-negative. -/
theorem ite_weight_nonneg {p : Prop} [Decidable p] {w : ℚ} (hw : 0 ≤ w) :
    0 ≤ if p then w else 0 := by
  split_ifs
  · exact hw
  · exact le_refl 0

/-- A weight-or-zero term grows along an implication of its condition. -/
theorem ite_weight_mono {p q : Prop} [Decidable p] [Decidable q] {w : ℚ}
    (hw : 0 ≤ w) (hpq : p → q) :
    (if p then w else 0) ≤ if q then w else 0 := by
  split_ifs with h1 h2 h2
  · exact le_refl w
  · exact absurd (hpq h1) h2
  · exact hw
  · exact le_refl 0

/-- A truthy greater-than signal stays triggered as the value grows. -/
theorem truthyGt_mono {x y t : ℚ} (ht : 0 ≤ t) (hxy : x ≤ y) :
    truthyGt (some x) t = true → truthyGt (some y) t = true := by
  simp only [truthyGt, Bool.and_eq_true, decide_eq_true_eq]
  rintro ⟨_, htx⟩
  exact ⟨(lt_of_le_of_lt ht (lt_of_lt_of_le htx hxy)).ne', by linarith⟩

/-- A truthy less-than signal stays triggered as a positive value
shrinks. -/
theorem truthyLt_anti {x y t : ℚ} (hx : 0 < x) (hxy : x ≤ y) :
    truthyLt (some y) t = true → truthyLt (some x) t = true := by
  simp only [truthyLt, Bool.and_eq_true, decide_eq_true_eq]
  rintro ⟨_, hyt⟩
  exact ⟨hx.ne', by linarith⟩

/-- C4 counterexample: raising the averageMessageLength signal from 5 to 20
lowers the risk score from 10 to 0, so the score is not monotonically
non-decreasing in each individual input signal. -/
theorem riskScore_not_monotone_in_length :
    ((5 : ℚ) ≤ 20) ∧
    calculateRiskScore { averageMessageLength := some 5 } = 10 ∧
    calculateRiskScore { averageMessageLength := some 20 } = 0 := by
  refine ⟨by norm_num, ?_, ?_⟩ <;>
    norm_num [calculateRiskScore, truthyGt, truthyLt, avgSentimentOf]

/-- C4 amended: holding the other signals fixed, the risk score is
non-decreasing in messagesPerHour and in flaggedMessageRatio,
non-increasing in the mean of the sentiment trend, non-increasing over
positive values of responseTimeAvg and of averageMessageLength (at zero
the truthiness guard turns those signals off), and always within
[0, 100]. -/
theorem riskScore_monotone_amended :
    (∀ (m : PartialMetrics) (x y : ℚ), x ≤ y →
      calculateRiskScore { m with messagesPerHour := some x } ≤
        calculateRiskScore { m with messagesPerHour := some y }) ∧
    (∀ (m : PartialMetrics) (x y : ℚ), x ≤ y →
      calculateRiskScore { m with flaggedMessageRatio := some x } ≤
        calculateRiskScore { m with flaggedMessageRatio := some y }) ∧
    (∀ (m : PartialMetrics) (t t' : Option (List SentimentPoint)),
      avgSentimentOf t ≤ avgSentimentOf t' →
      calculateRiskScore { m with sentimentTrend := t' } ≤
        calculateRiskScore { m with sentimentTrend := t }) ∧
    (∀ (m : PartialMetrics) (x y : ℚ), 0 < x → x ≤ y →
      calculateRiskScore { m with responseTimeAvg := some y } ≤
        calculateRiskScore { m with responseTimeAvg := some x }) ∧
    (∀ (m : PartialMetrics) (x y : ℚ), 0 < x → x ≤ y →
      calculateRiskScore { m with averageMessageLength := some y } ≤
        calculateRiskScore { m with averageMessageLength := some x }) ∧
    (∀ m : PartialMetrics,
      0 ≤ calculateRiskScore m ∧ calculateRiskScore m ≤ 100) := by
  refine ⟨?_, ?_, ?_, ?_, ?_, ?_⟩
  · intro m x y hxy
    simp only [calculateRiskScore]
    refine min_le_min ?_ le_rfl
    refine add_le_add (add_le_add (add_le_add (add_le_add ?_ le_rfl) le_rfl)
      le_rfl) le_rfl
    exact ite_weight_mono (by norm_num) (truthyGt_mono (by norm_num) hxy)
  · intro m x y hxy
    simp only [calculateRiskScore]
    refine min_le_min ?_ le_rfl
    refine add_le_add (add_le_add (add_le_add (add_le_add le_rfl ?_) le_rfl)
      le_rfl) le_rfl
    exact ite_weight_mono (by norm_num) (truthyGt_mono (by norm_num) hxy)
  · intro m t t' htt
    simp only [calculateRiskScore]
    refine min_le_min ?_ le_rfl
    refine add_le_add (add_le_add (add_le_add le_rfl ?_) le_rfl) le_rfl
    exact ite_weight_mono (by norm_num) fun h => lt_of_le_of_lt htt h
  · intro m x y hx hxy
    simp only [calculateRiskScore]
    refine min_le_min ?_ le_rfl
    refine add_le_add (add_le_add le_rfl ?_) le_rfl
    exact ite_weight_mono (by norm_num) (truthyLt_anti hx hxy)
  · intro m x y hx hxy
    simp only [calculateRiskScore]
    refine min_le_min ?_ le_rfl
    refine add_le_add le_rfl ?_
    exact ite_weight_mono (by norm_num) (truthyLt_anti hx hxy)
  · intro m
    constructor
    · refine le_min ?_ (by norm_num)
      refine add_nonneg (add_nonneg (add_nonneg (add_nonneg ?_ ?_) ?_) ?_) ?_ <;>
        exact ite_weight_nonneg (by norm_num)
    · exact min_le_right _ _

/-- C4 witness: the amended monotonicity and bounds applied at concrete
inputs. -/
theorem riskScore_monotone_amended_witness :
    (calculateRiskScore { zeroResponseMetrics with messagesPerHour := some 5 } ≤
      calculateRiskScore { zeroResponseMetrics with messagesPerHour := some 20 }) ∧
    (calculateRiskScore { zeroResponseMetrics with responseTimeAvg := some 9000 } ≤
      calculateRiskScore { zeroResponseMetrics with responseTimeAvg := some 100 }) ∧
    0 ≤ calculateRiskScore zeroResponseMetrics ∧
    calculateRiskScore zeroResponseMetrics ≤ 100 :=
  ⟨riskScore_monotone_amended.1 zeroResponseMetrics 5 20 (by norm_num),
   riskScore_monotone_amended.2.2.2.1 zeroResponseMetrics 100 9000
     (by norm_num) (by norm_num),
   riskScore_monotone_amended.2.2.2.2.2 zeroResponseMetrics⟩

/-! ## C5 -/

/-- Counting the active bans of `u` after a `banUser` call: one more for
the banned user, unchanged for everyone else. -/
theorem activeBansFor_banUser (s : BanStore)
    (userId bannedBy reason : String) (type : BanType) (duration : Option ℕ)
    (banId : String) (now : ℤ) (u : String) :
    (activeBansFor (banUser s userId bannedBy reason type duration banId now)
      u).length =
    (activeBansFor s u).length + (if u = userId then 1 else 0) := by
  unfold activeBansFor banUser
  simp only [List.filter_append, List.length_append]
  congr 1
  by_cases hu : u = userId
  · subst hu
    simp [List.filter]
  · have hne : (userId == u) = false := beq_eq_false_iff_ne.mpr fun h => hu h.symm
    simp [List.filter, hne, hu]

/-- Revoking the first active ban never raises any user's active count. -/
theorem revokeFirstActive_active_le (u revokedBy revokeReason : String)
    (now : ℤ) (v : String) (l : List BanRecord) :
    ((revokeFirstActive u revokedBy revokeReason now l).filter
      (fun b => b.userId == v && b.isActive)).length ≤
    (l.filter (fun b => b.userId == v && b.isActive)).length := by
  induction l with
  | nil => simp [revokeFirstActive]
  | cons b rest ih =>
    by_cases hb : (b.userId == u && b.isActive) = true
    · simp only [revokeFirstActive]
      rw [if_pos hb]
      have h1 : List.filter (fun b => b.userId == v && b.isActive)
          ({ b with
             isActive := false
             revokedBy := some revokedBy
             revokedAt := some now
             revokeReason := some revokeReason } :: rest) =
          List.filter (fun b => b.userId == v && b.isActive) rest := by
        simp [List.filter_cons]
      rw [h1, List.filter_cons]
      split
      · simp
      · exact le_refl _
    · simp only [revokeFirstActive]
      rw [if_neg hb, List.filter_cons, List.filter_cons]
      by_cases hpb : (b.userId == v && b.isActive) = true
      · rw [if_pos hpb, if_pos hpb]
        simp only [List.length_cons]
        exact Nat.succ_le_succ ih
      · rw [if_neg hpb, if_neg hpb]
        exact ih

/-- C5 counterexample: from the empty store, banning u1 keeps the
at-most-one-active-ban invariant, but a second `banUser` call for u1
leaves two active ban records, so `banUser` does not preserve the
invariant. -/
theorem banUser_twice_two_active_bans :
    oneActiveBanPerUser banStore1 ∧ ¬ oneActiveBanPerUser banStore2 := by
  constructor
  · intro u
    exact le_trans (List.length_filter_le _ _) (by decide)
  · intro h
    exact absurd (h "u1") (by decide)

/-- C5 amended: `unbanUser` always preserves the at-most-one-active-ban
invariant, and `banUser` preserves it exactly when the banned user has no
active ban yet (the code performs no such check itself). -/
theorem ban_ops_preserve_single_active :
    (∀ (s : BanStore) (userId bannedBy reason : String) (type : BanType)
      (duration : Option ℕ) (banId : String) (now : ℤ),
      oneActiveBanPerUser s → activeBansFor s userId = [] →
      oneActiveBanPerUser
        (banUser s userId bannedBy reason type duration banId now)) ∧
    (∀ (s : BanStore) (userId revokedBy revokeReason : String) (now : ℤ),
      oneActiveBanPerUser s →
      oneActiveBanPerUser
        (unbanUser s userId revokedBy revokeReason now).1) := by
  constructor
  · intro s userId bannedBy reason type duration banId now hs hempty u
    rw [activeBansFor_banUser]
    by_cases hu : u = userId
    · rw [if_pos hu, hu, hempty]
      simp
    · rw [if_neg hu]
      simpa using hs u
  · intro s userId revokedBy revokeReason now hs u
    by_cases hc : (s.bans.any fun b => b.userId == userId && b.isActive) = true
    · simp only [unbanUser, if_pos hc, activeBansFor]
      exact le_trans
        (revokeFirstActive_active_le userId revokedBy revokeReason now u s.bans)
        (hs u)
    · simp only [unbanUser, if_neg hc]
      exact hs u

/-- C5 witness: the amended preservation applied to concrete stores. -/
theorem ban_ops_preserve_single_active_witness :
    oneActiveBanPerUser
      (banUser banStore0 "u2" "admin" "spam" .permanent none "b7" 500) ∧
    oneActiveBanPerUser
      (unbanUser banStore1 "u1" "admin" "appeal accepted" 3000).1 := by
  constructor
  · exact ban_ops_preserve_single_active.1 banStore0 "u2" "admin" "spam"
      .permanent none "b7" 500 (fun u => by simp [activeBansFor, banStore0])
      (by rfl)
  · exact ban_ops_preserve_single_active.2 banStore1 "u1" "admin"
      "appeal accepted" 3000
      (fun u => le_trans (List.length_filter_le _ _) (by decide))

/-! ## C6 -/

/-- C6: reviewing an existing flag with action deleted merges
reviewed=true, the reviewer, the review time and the action into the flag
record (all other fields kept), and removes the underlying message, so a
subsequent read of messages/(id) is absent. -/
theorem review_deleted_roundtrip (s : ModerationStore)
    (messageId reviewerId : String) (now : ℤ) (f : StoredFlag)
    (hf : s.flaggedMessages messageId = some f) :
    (reviewFlaggedMessage s messageId reviewerId .deleted now).flaggedMessages
        messageId =
      some { f with
             reviewed := some true
             reviewedBy := some reviewerId
             reviewedAt := some now
             action := some ReviewAction.deleted } ∧
    (reviewFlaggedMessage s messageId reviewerId .deleted now).messages
      messageId = none := by
  constructor <;> simp [reviewFlaggedMessage, deleteMessage, hf]

/-- C6 witness: the round trip on a concrete store holding one message and
its flag. -/
theorem review_deleted_roundtrip_witness :
    (reviewFlaggedMessage sampleStore "m1" "mod1" .deleted 5000).flaggedMessages
        "m1" =
      some { sampleFlag with
             reviewed := some true
             reviewedBy := some "mod1"
             reviewedAt := some 5000
             action := some ReviewAction.deleted } ∧
    (reviewFlaggedMessage sampleStore "m1" "mod1" .deleted 5000).messages
      "m1" = none :=
  review_deleted_roundtrip sampleStore "m1" "mod1" 5000 sampleFlag (by rfl)

/-! ## C8 -/

/-- C8: for a user with a stored profile and no message in the analysis
window, the behavior analyzer returns (never throws) the zeroed metrics
record: zero counts, averages and ratios, empty peak hours, sentiment
trend and keywords, risk score zero. -/
theorem analyzeUserBehavior_empty_window (messages : List Message)
    (u : UserRecord) (flaggedMessages : List StoredFlag) (userId : String)
    (days : ℕ) (now tz : ℤ)
    (h : messages.filter (fun m =>
      m.userId == some userId &&
        decide (now - days * 86400000 < m.timestamp)) = []) :
    analyzeUserBehavior messages (some u) flaggedMessages userId days now tz =
      some { userId := userId, email := u.email, displayName := u.displayName,
             totalMessages := 0, averageMessageLength := 0,
             averageWordsPerMessage := 0, messagesPerHour := 0,
             peakActivityHours := [], sentimentTrend := [],
             flaggedMessageRatio := 0, responseTimeAvg := 0,
             topKeywords := [], riskScore := 0,
             lastActivity := u.lastActive } := by
  unfold analyzeUserBehavior
  rw [h]
  rfl

/-- C8 witness: a store whose only message belongs to another user. -/
theorem analyzeUserBehavior_empty_window_witness :
    analyzeUserBehavior
      [{ text := "hi", user := "bob", userId := some "uB", timestamp := 50 }]
      (some { email := "alice@example.com", displayName := some "Alice",
              lastActive := 77 })
      [] "uA" 30 60 0 =
      some { userId := "uA", email := "alice@example.com",
             displayName := some "Alice", totalMessages := 0,
             averageMessageLength := 0, averageWordsPerMessage := 0,
             messagesPerHour := 0, peakActivityHours := [],
             sentimentTrend := [], flaggedMessageRatio := 0,
             responseTimeAvg := 0, topKeywords := [], riskScore := 0,
             lastActivity := 77 } :=
  analyzeUserBehavior_empty_window _ _ _ _ _ _ _ (by decide)

/-! ## C9 -/

/-- When every flag of a list was resolved as deleted or approved, the two
resolution buckets partition the list. -/
theorem deleted_approved_partition (l : List StoredFlag)
    (h : ∀ f ∈ l, f.action = some ReviewAction.deleted ∨
      f.action = some ReviewAction.approved) :
    (l.filter fun f => f.action == some ReviewAction.deleted).length +
    (l.filter fun f => f.action == some ReviewAction.approved).length =
    l.length := by
  induction l with
  | nil => rfl
  | cons x xs ih =>
    have hx := h x (List.mem_cons_self x xs)
    have hxs := ih fun f hf => h f (List.mem_cons_of_mem x hf)
    rcases hx with hx | hx <;> simp [List.filter_cons, hx] <;> omega

/-- C9 counterexample: a window with one reviewed-deleted and one
reviewed-edited flag.  The claimed rate deleted/(deleted+approved) is
1/(1+0), i.e. 100 percent, but the code reports 50: its denominator
counts every reviewed flag, the edited one included. -/
theorem effectiveness_edited_mismatch :
    (recentReviewed [reviewedDeletedFlag, reviewedEditedFlag] 30 100).length
      = 2 ∧
    ((recentReviewed [reviewedDeletedFlag, reviewedEditedFlag] 30 100).filter
      fun f => f.action == some ReviewAction.deleted).length = 1 ∧
    ((recentReviewed [reviewedDeletedFlag, reviewedEditedFlag] 30 100).filter
      fun f => f.action == some ReviewAction.approved).length = 0 ∧
    (moderationEffectivenessSummary [reviewedDeletedFlag, reviewedEditedFlag]
      30 100).accuracyRate = 50 ∧
    ((1 : ℚ) / ((1 : ℚ) + 0)) * 100 = 100 := by
  refine ⟨by decide, by decide, by decide, ?_, by norm_num⟩
  norm_num [moderationEffectivenessSummary, recentReviewed,
    reviewedDeletedFlag, reviewedEditedFlag, truthyTime, List.filter_cons,
    show ReviewAction.edited ≠ ReviewAction.deleted from by decide,
    show ReviewAction.edited ≠ ReviewAction.approved from by decide]

/-- C9 amended: the accuracy rate is 100·deleted/totalReviews and the
false-positive rate 100·approved/totalReviews over all reviewed flags of
the window; when every reviewed flag in the window was resolved as deleted
or approved these equal 100·deleted/(deleted+approved) and
100·approved/(deleted+approved). -/
theorem effectiveness_rates_amended (flaggedMessages : List StoredFlag)
    (days : ℕ) (now : ℤ)
    (h : ∀ f ∈ recentReviewed flaggedMessages days now,
      f.action = some ReviewAction.deleted ∨
        f.action = some ReviewAction.approved) :
    (moderationEffectivenessSummary flaggedMessages days now).accuracyRate =
      100 * (((recentReviewed flaggedMessages days now).filter
          fun f => f.action == some ReviewAction.deleted).length : ℚ) /
        ((((recentReviewed flaggedMessages days now).filter
          fun f => f.action == some ReviewAction.deleted).length : ℚ) +
         (((recentReviewed flaggedMessages days now).filter
          fun f => f.action == some ReviewAction.approved).length : ℚ)) ∧
    (moderationEffectivenessSummary flaggedMessages days now).falsePositiveRate =
      100 * (((recentReviewed flaggedMessages days now).filter
          fun f => f.action == some ReviewAction.approved).length : ℚ) /
        ((((recentReviewed flaggedMessages days now).filter
          fun f => f.action == some ReviewAction.deleted).length : ℚ) +
         (((recentReviewed flaggedMessages days now).filter
          fun f => f.action == some ReviewAction.approved).length : ℚ)) := by
  have hpart := deleted_approved_partition _ h
  simp only [moderationEffectivenessSummary]
  by_cases hn : 0 < (recentReviewed flaggedMessages days now).length
  · rw [if_pos hn, if_pos hn]
    have hcast : ((((recentReviewed flaggedMessages days now).filter
          fun f => f.action == some ReviewAction.deleted).length : ℚ) +
        (((recentReviewed flaggedMessages days now).filter
          fun f => f.action == some ReviewAction.approved).length : ℚ)) =
        ((recentReviewed flaggedMessages days now).length : ℚ) := by
      exact_mod_cast hpart
    rw [hcast]
    constructor <;> ring
  · rw [if_neg hn, if_neg hn]
    have h0 : (recentReviewed flaggedMessages days now).length = 0 :=
      Nat.eq_zero_of_not_pos hn
    have hd : ((recentReviewed flaggedMessages days now).filter
        fun f => f.action == some ReviewAction.deleted).length = 0 :=
      Nat.le_zero.mp (h0 ▸ List.length_filter_le _ _)
    have ha : ((recentReviewed flaggedMessages days now).filter
        fun f => f.action == some ReviewAction.approved).length = 0 :=
      Nat.le_zero.mp (h0 ▸ List.length_filter_le _ _)
    rw [hd, ha]
    norm_num

/-- C9 witness: the amended rates on a window holding one deleted and one
approved review. -/
theorem effectiveness_rates_amended_witness :
    (moderationEffectivenessSummary [reviewedDeletedFlag, reviewedApprovedFlag]
      30 100).accuracyRate =
      100 * (((recentReviewed [reviewedDeletedFlag, reviewedApprovedFlag]
          30 100).filter
          fun f => f.action == some ReviewAction.deleted).length : ℚ) /
        ((((recentReviewed [reviewedDeletedFlag, reviewedApprovedFlag]
          30 100).filter
          fun f => f.action == some ReviewAction.deleted).length : ℚ) +
         (((recentReviewed [reviewedDeletedFlag, reviewedApprovedFlag]
          30 100).filter
          fun f => f.action == some ReviewAction.approved).length : ℚ)) ∧
    (moderationEffectivenessSummary [reviewedDeletedFlag, reviewedApprovedFlag]
      30 100).falsePositiveRate =
      100 * (((recentReviewed [reviewedDeletedFlag, reviewedApprovedFlag]
          30 100).filter
          fun f => f.action == some ReviewAction.approved).length : ℚ) /
        ((((recentReviewed [reviewedDeletedFlag, reviewedApprovedFlag]
          30 100).filter
          fun f => f.action == some ReviewAction.deleted).length : ℚ) +
         (((recentReviewed [reviewedDeletedFlag, reviewedApprovedFlag]
          30 100).filter
          fun f => f.action == some ReviewAction.approved).length : ℚ)) :=
  effectiveness_rates_amended [reviewedDeletedFlag, reviewedApprovedFlag]
    30 100 (by decide)

end SessionProcess
